import Mathlib

/-!
# Graham Bridge: raw print dispatch and the `/print` handler

A shallow embedding of `bridge/print_windows.go` (`sendToPrinter`) and of
`bridge/main.go` (`printHandler`), together with the part of Go's
`encoding/base64` that `printHandler` relies on.

* Go strings and byte slices are lists of bytes (`Fin 256`).
* The Windows spooler is a record of replies, one per `winspool.drv`
  procedure.  `sendToPrinter` calls every procedure at most once, so a
  deterministic spooler is fully described by the reply it gives to each call.
* A dispatch yields its Go outcome (returned error, or a run-time panic) and
  the ordered list of spooler calls it made, each with the reply received.
* `winspool.drv` and its seven procedures are taken to load, so that a
  `LazyProc.Call` always reaches the spooler; log output is not modelled.
* The request body enters `printHandler` as the result of the JSON decoder.
-/

namespace Bridge

/-! ## Data model -/

/-- One octet. -/
abbrev Byte := Fin 256

/-- Go `string` and `[]byte` values are both byte sequences. -/
abbrev GoString := List Byte

/-- Value of a `syscall.Errno`. -/
abbrev Errno := Nat

/-- What a `LazyProc.Call` hands back: the return register `r1`, the value the
procedure stored through its out-pointer argument (`&hPrinter` for
`OpenPrinterW`, `&written` for `WritePrinter`; unused by the others), and the
thread's last error. -/
structure Reply where
  r1 : Nat
  out : Nat
  lastErr : Errno
deriving DecidableEq, Repr

/-- The simulated spooler subsystem: the reply of each `winspool.drv`
procedure, and the text Windows gives for an error number. -/
structure Winspool where
  OpenPrinterW : Reply
  StartDocPrinterW : Reply
  StartPagePrinter : Reply
  WritePrinter : Reply
  EndPagePrinter : Reply
  EndDocPrinter : Reply
  ClosePrinter : Reply
  errorText : Errno → String

/-- The Win32 `DOC_INFO_1W` structure built by `sendToPrinter`. -/
structure docInfo1 where
  pDocName : String
  pOutputFile : Option String
  pDatatype : String
deriving DecidableEq, Repr

/-- A call into `winspool.drv` with its arguments (pointers are represented by
the data they point to). -/
inductive Call where
  | OpenPrinterW (pPrinterName : GoString)
  | StartDocPrinterW (hPrinter : Nat) (level : Nat) (info : docInfo1)
  | StartPagePrinter (hPrinter : Nat)
  | WritePrinter (hPrinter : Nat) (pBuf : List Byte) (cbBuf : Nat)
  | EndPagePrinter (hPrinter : Nat)
  | EndDocPrinter (hPrinter : Nat)
  | ClosePrinter (hPrinter : Nat)
deriving DecidableEq, Repr

/-- A spooler call together with the reply it received. -/
structure Event where
  call : Call
  reply : Reply
deriving DecidableEq, Repr

/-- The errors `sendToPrinter` can return, one per `fmt.Errorf` site. -/
inductive PrintError where
  | encodePrinterName
  | openPrinter (lastErr : Errno)
  | startDoc (lastErr : Errno)
  | startPage (lastErr : Errno)
  | writePrinter (lastErr : Errno)
  | shortWrite (written : Nat) (len : Nat)
deriving DecidableEq, Repr

/-- The text of the error (`err.Error()`); `syscall.EINVAL` reads
"invalid argument". -/
def PrintError.Error (errorText : Errno → String) : PrintError → String
  | .encodePrinterName => "encode printer name: invalid argument"
  | .openPrinter e => "OpenPrinterW failed: " ++ errorText e
  | .startDoc e => "StartDocPrinterW failed: " ++ errorText e
  | .startPage e => "StartPagePrinter failed: " ++ errorText e
  | .writePrinter e => "WritePrinter failed: " ++ errorText e
  | .shortWrite written len =>
      "WritePrinter wrote " ++ toString written ++ " of " ++ toString len ++ " bytes"

/-- How a Go call ends: it returns its `error` result (`none` is `nil`), or it
panics (here only "index out of range [0] with length 0"). -/
inductive Outcome where
  | returned (err : Option PrintError)
  | panicked
deriving DecidableEq, Repr

/-- Result of one `sendToPrinter` call: outcome and spooler calls in order. -/
structure Dispatch where
  result : Outcome
  trace : List Event
deriving DecidableEq, Repr

/-! ## `sendToPrinter` -/

/-- The function `syscall.UTF16PtrFromString`: fails with `EINVAL` when the
string holds a NUL byte; the pointer is represented by the string. -/
def UTF16PtrFromString (s : GoString) : Option GoString :=
  if (0 : Byte) ∈ s then none else some s

/-- Lines 64-104 of `print_windows.go`: the part of `sendToPrinter` that runs
while the deferred `ClosePrinter` is pending.  The variable `written` is a
`uint32`, hence the reduction modulo `2 ^ 32`; `&data[0]` panics on an empty
slice, before `WritePrinter` is called. -/
def sendToPrinterBody (os : Winspool) (hPrinter : Nat) (data : List Byte) : Dispatch :=
  let info : docInfo1 :=
    { pDocName := "Braille Vibe Job", pOutputFile := none, pDatatype := "RAW" }
  let startDoc : Event := ⟨.StartDocPrinterW hPrinter 1 info, os.StartDocPrinterW⟩
  if startDoc.reply.r1 = 0 then
    ⟨.returned (some (.startDoc startDoc.reply.lastErr)), [startDoc]⟩
  else
    let startPage : Event := ⟨.StartPagePrinter hPrinter, os.StartPagePrinter⟩
    if startPage.reply.r1 = 0 then
      ⟨.returned (some (.startPage startPage.reply.lastErr)), [startDoc, startPage]⟩
    else
      match data with
      | [] => ⟨.panicked, [startDoc, startPage]⟩
      | _ :: _ =>
        let write : Event := ⟨.WritePrinter hPrinter data data.length, os.WritePrinter⟩
        let written : Nat := write.reply.out % 2 ^ 32
        if write.reply.r1 = 0 then
          ⟨.returned (some (.writePrinter write.reply.lastErr)), [startDoc, startPage, write]⟩
        else if written ≠ data.length then
          ⟨.returned (some (.shortWrite written data.length)), [startDoc, startPage, write]⟩
        else
          ⟨.returned none,
            [startDoc, startPage, write,
              ⟨.EndPagePrinter hPrinter, os.EndPagePrinter⟩,
              ⟨.EndDocPrinter hPrinter, os.EndDocPrinter⟩]⟩

/-- The function `sendToPrinter(printerName, data)`.  The deferred
`procClose.Call(hPrinter)` runs after the body on every way out of it,
a panic included. -/
def sendToPrinter (os : Winspool) (printerName : GoString) (data : List Byte) : Dispatch :=
  match UTF16PtrFromString printerName with
  | none => ⟨.returned (some .encodePrinterName), []⟩
  | some printerNamePtr =>
    let openEv : Event := ⟨.OpenPrinterW printerNamePtr, os.OpenPrinterW⟩
    if openEv.reply.r1 = 0 then
      ⟨.returned (some (.openPrinter openEv.reply.lastErr)), [openEv]⟩
    else
      let hPrinter := openEv.reply.out
      let body := sendToPrinterBody os hPrinter data
      ⟨body.result, openEv :: body.trace ++ [⟨.ClosePrinter hPrinter, os.ClosePrinter⟩]⟩

/-! ## Go `encoding/base64`, `StdEncoding` -/

/-- Bytes of an ASCII string literal. -/
def ascii (s : String) : GoString :=
  s.toList.map fun c => Fin.ofNat c.toNat

/-- The constant `encodeStd`: the alphabet of `StdEncoding`. -/
def encodeStd : GoString :=
  ascii "ABCDEFGHIJKLMNOPQRSTUVWXYZabcdefghijklmnopqrstuvwxyz0123456789+/"

/-- The padding character `StdPadding`, an equals sign. -/
def padChar : Byte := 61

/-- The table `enc.encode`: sextet to alphabet character. -/
def encode (i : Nat) : Byte :=
  encodeStd.getD i 0

/-- The table `enc.decodeMap`: alphabet character to sextet, `0xff` for every
other byte. -/
def decodeMap (c : Byte) : Nat :=
  let i := encodeStd.indexOf c
  if i < 64 then i else 0xff

/-- Go's conversion `byte(x)` of an unsigned integer. -/
def toByte (x : Nat) : Byte :=
  Fin.ofNat x

/-- The method `(*Encoding).EncodeToString` of `StdEncoding`: whole 3-byte
groups first, then the 1- or 2-byte remainder with padding. -/
def EncodeToString : List Byte → GoString
  | a :: b :: c :: rest =>
      let val := a.val <<< 16 ||| b.val <<< 8 ||| c.val
      encode (val >>> 18 &&& 0x3F) :: encode (val >>> 12 &&& 0x3F) ::
        encode (val >>> 6 &&& 0x3F) :: encode (val &&& 0x3F) :: EncodeToString rest
  | [a, b] =>
      let val := a.val <<< 16 ||| b.val <<< 8
      [encode (val >>> 18 &&& 0x3F), encode (val >>> 12 &&& 0x3F),
        encode (val >>> 6 &&& 0x3F), padChar]
  | [a] =>
      let val := a.val <<< 16
      [encode (val >>> 18 &&& 0x3F), encode (val >>> 12 &&& 0x3F), padChar, padChar]
  | [] => []

/-- The tail of `decodeQuantum`: turn the sextets read (missing ones are 0)
into bytes and keep `dlen - 1` of them. -/
def quantumBytes (dbuf : List Nat) (dlen : Nat) : List Byte :=
  let val := dbuf.getD 0 0 <<< 18 ||| dbuf.getD 1 0 <<< 12 ||| dbuf.getD 2 0 <<< 6 |||
    dbuf.getD 3 0
  [toByte (val >>> 16), toByte (val >>> 8), toByte (val >>> 0)].take (dlen - 1)

/-- The loops `for si < len(src) && (src[si] == '\n' || src[si] == '\r')`:
the unread input and its offset after the skipped newlines. -/
def skipNewlines : List Byte → Nat → List Byte × Nat
  | [], si => ([], si)
  | c :: rest, si =>
      if c = 10 ∨ c = 13 then skipNewlines rest (si + 1) else (c :: rest, si)

/-- In `decodeQuantum` after the padding: trailing garbage is
`CorruptInputError(si)`. -/
def trailing (unread : List Byte × Nat) : Option Nat :=
  match unread.1 with
  | [] => none
  | _ :: _ => some unread.2

/-- The loop of `(*Encoding).Decode` around `decodeQuantum`, for `StdEncoding`
(padded, not strict).  The arguments are the unread input, its offset `si` and
the sextets of the quantum being read (`j = dbuf.length`); when the fourth
sextet arrives the quantum's three bytes are written and the next quantum
starts at `j = 0`.  The result is the decoded bytes `dst[:n]` and the offset of
a `CorruptInputError`, if any.  (The 8- and 4-character fast paths of `Decode`
decode a run of valid characters to the same bytes.) -/
def decodeFrom (srcLen : Nat) : List Byte → Nat → List Nat → List Byte × Option Nat
  | [], si, dbuf =>
      if dbuf.length = 0 then ([], none) else ([], some (si - dbuf.length))
  | c :: rest, si0, dbuf =>
      let si := si0 + 1
      let out := decodeMap c
      if out ≠ 0xff then
        if dbuf.length = 3 then
          let next := decodeFrom srcLen rest si []
          (quantumBytes (dbuf ++ [out]) 4 ++ next.1, next.2)
        else
          decodeFrom srcLen rest si (dbuf ++ [out])
      else if c = 10 ∨ c = 13 then
        decodeFrom srcLen rest si dbuf
      else if c ≠ padChar then
        ([], some (si - 1))
      else if dbuf.length = 0 ∨ dbuf.length = 1 then
        ([], some (si - 1))
      else if dbuf.length = 2 then
        match skipNewlines rest si with
        | ([], _) => ([], some srcLen)
        | (c2 :: rest2, si2) =>
            if c2 ≠ padChar then ([], some (si2 - 1))
            else (quantumBytes dbuf 2, trailing (skipNewlines rest2 (si2 + 1)))
      else
        (quantumBytes dbuf dbuf.length, trailing (skipNewlines rest si))

/-- The method `(*Encoding).DecodeString` of `StdEncoding`: the decoded bytes
and the error (`none` is `nil`). -/
def DecodeString (s : GoString) : List Byte × Option Nat :=
  if s.length = 0 then ([], none) else decodeFrom s.length s 0 []

/-! ## `printHandler` -/

/-- The struct `printRequest`: the JSON body of `/print`. -/
structure printRequest where
  Printer : GoString
  Data : GoString
deriving DecidableEq, Repr

/-- What `printHandler` reads of the `*http.Request`: the method, and the
result of `json.NewDecoder(r.Body).Decode(&req)` (the error text, or the
decoded struct, in which an absent field is the empty string). -/
structure Request where
  Method : String
  Body : Except String printRequest

/-- What the handler writes to the `http.ResponseWriter`. -/
structure Response where
  status : Nat
  contentType : String
  body : String
deriving DecidableEq, Repr

/-- The function `http.Error`: a plain-text reply, the message followed by a
newline. -/
def httpError (error : String) (code : Nat) : Response :=
  ⟨code, "text/plain; charset=utf-8", error ++ "\n"⟩

/-- One run of `printHandler`: the response written (`none` when the handler
panicked; `net/http` then drops the connection), the `sendToPrinter` calls
made, and the spooler calls made within them. -/
structure Served where
  response : Option Response
  dispatched : List (GoString × List Byte)
  trace : List Event
deriving DecidableEq, Repr

/-- The function `printHandler`, check by check; the `log.Printf` line before
the dispatch only writes to the log. -/
def printHandler (os : Winspool) (r : Request) : Served :=
  if r.Method ≠ "POST" then
    ⟨some (httpError "method not allowed" 405), [], []⟩
  else
    match r.Body with
    | .error err => ⟨some (httpError ("invalid JSON: " ++ err) 400), [], []⟩
    | .ok req =>
      if req.Printer = [] then
        ⟨some (httpError "printer name is required" 400), [], []⟩
      else if req.Data = [] then
        ⟨some (httpError "data is required" 400), [], []⟩
      else
        match DecodeString req.Data with
        | (_, some off) =>
            ⟨some (httpError ("invalid base64 data: illegal base64 data at input byte " ++
              toString off) 400), [], []⟩
        | (rawBytes, none) =>
            let sent := sendToPrinter os req.Printer rawBytes
            match sent.result with
            | .panicked => ⟨none, [(req.Printer, rawBytes)], sent.trace⟩
            | .returned (some err) =>
                ⟨some (httpError ("print failed: " ++ err.Error os.errorText) 500),
                  [(req.Printer, rawBytes)], sent.trace⟩
            | .returned none =>
                ⟨some ⟨200, "application/json", "\x7b\"status\":\"queued\"\x7d"⟩,
                  [(req.Printer, rawBytes)], sent.trace⟩

/-- A spooler in which every call succeeds and `WritePrinter` reports `n`
bytes written. -/
def spoolerOk (n : Nat) : Winspool :=
  { OpenPrinterW := ⟨1, 7, 0⟩, StartDocPrinterW := ⟨1, 0, 0⟩, StartPagePrinter := ⟨1, 0, 0⟩,
    WritePrinter := ⟨1, n, 0⟩, EndPagePrinter := ⟨1, 0, 0⟩, EndDocPrinter := ⟨1, 0, 0⟩,
    ClosePrinter := ⟨1, 0, 0⟩, errorText := fun e => "errno " ++ toString e }

/-- A spooler whose `OpenPrinterW` fails with error 1801; every later call
would succeed. -/
def spoolerOpenFails : Winspool :=
  { spoolerOk 1 with OpenPrinterW := ⟨0, 0, 1801⟩ }

/-- A spooler whose `StartPagePrinter` fails with error 5; every other call
succeeds. -/
def spoolerPageFails : Winspool :=
  { spoolerOk 1 with StartPagePrinter := ⟨0, 0, 5⟩ }

/-! ## Vocabulary of the properties -/

/-- The calls of a trace, replies dropped. -/
def calls (t : List Event) : List Call :=
  t.map Event.call

/-- A handle acquisition: an `OpenPrinterW` call that reported success. -/
def Event.isAcquire (e : Event) : Bool :=
  match e.call with
  | .OpenPrinterW _ => decide (e.reply.r1 ≠ 0)
  | _ => false

/-- An `OpenPrinterW` call that reported failure. -/
def Event.isFailedOpen (e : Event) : Bool :=
  match e.call with
  | .OpenPrinterW _ => decide (e.reply.r1 = 0)
  | _ => false

/-- A handle release: a `ClosePrinter` call. -/
def Event.isRelease (e : Event) : Bool :=
  match e.call with
  | .ClosePrinter _ => true
  | _ => false

/-- The seven calls of a complete raw job, in order. -/
def protocol (printerName : GoString) (hPrinter : Nat) (data : List Byte) : List Call :=
  [.OpenPrinterW printerName,
    .StartDocPrinterW hPrinter 1
      { pDocName := "Braille Vibe Job", pOutputFile := none, pDatatype := "RAW" },
    .StartPagePrinter hPrinter,
    .WritePrinter hPrinter data data.length,
    .EndPagePrinter hPrinter,
    .EndDocPrinter hPrinter,
    .ClosePrinter hPrinter]

/-- Whether step `k` of a job succeeds in the spooler `os` (0 open, 1 begin
document, 2 begin page, 3 write): a non-zero return and, for the write, a
written count equal to the payload length. -/
def stepOk (os : Winspool) (data : List Byte) : Nat → Bool
  | 0 => decide (os.OpenPrinterW.r1 ≠ 0)
  | 1 => decide (os.StartDocPrinterW.r1 ≠ 0)
  | 2 => decide (os.StartPagePrinter.r1 ≠ 0)
  | 3 => decide (os.WritePrinter.r1 ≠ 0 ∧ os.WritePrinter.out % 2 ^ 32 = data.length)
  | _ => true

/-! ## Arithmetic of sextets -/

theorem mul_or (m k y : Nat) (h : y < 2 ^ k) : m * 2 ^ k ||| y = m * 2 ^ k + y := by
  rw [Nat.mul_comm, ← Nat.mul_add_lt_is_or h]

theorem and63 (x : Nat) : x &&& 0x3F = x % 64 := by
  have := Nat.and_pow_two_sub_one_eq_mod x 6
  simpa using this

theorem pack3 (a b c : Nat) (hb : b < 256) (hc : c < 256) :
    a <<< 16 ||| b <<< 8 ||| c = a * 65536 + b * 256 + c := by
  have h1 : a <<< 16 ||| b <<< 8 = a * 65536 + b * 256 := by
    rw [Nat.shiftLeft_eq, Nat.shiftLeft_eq]
    have := mul_or a 16 (b * 2 ^ 8) (by omega)
    omega
  have h2 : a * 65536 + b * 256 = (a * 256 + b) * 2 ^ 8 := by omega
  rw [h1, h2, mul_or _ 8 c (by omega)]

theorem pack4 (s0 s1 s2 s3 : Nat) (h1 : s1 < 64) (h2 : s2 < 64) (h3 : s3 < 64) :
    s0 <<< 18 ||| s1 <<< 12 ||| s2 <<< 6 ||| s3 = s0 * 262144 + s1 * 4096 + s2 * 64 + s3 := by
  have e1 : s0 <<< 18 ||| s1 <<< 12 = s0 * 262144 + s1 * 4096 := by
    rw [Nat.shiftLeft_eq, Nat.shiftLeft_eq]
    have := mul_or s0 18 (s1 * 2 ^ 12) (by omega)
    omega
  have e2 : s0 * 262144 + s1 * 4096 = (s0 * 64 + s1) * 2 ^ 12 := by omega
  have e3 : (s0 * 64 + s1) * 2 ^ 12 ||| s2 <<< 6 = (s0 * 64 + s1) * 2 ^ 12 + s2 * 64 := by
    rw [Nat.shiftLeft_eq]
    have := mul_or (s0 * 64 + s1) 12 (s2 * 2 ^ 6) (by omega)
    omega
  have e4 : (s0 * 64 + s1) * 2 ^ 12 + s2 * 64 = ((s0 * 64 + s1) * 64 + s2) * 2 ^ 6 := by omega
  rw [e1, e2, e3, e4, mul_or _ 6 s3 (by omega)]


theorem toByte_eq (x : Nat) (a : Byte) (h : x % 256 = a.val) : toByte x = a := by
  apply Fin.ext
  simpa [toByte, Fin.ofNat] using h

theorem sextets_roundtrip (a b c : Nat) (ha : a < 256) (hb : b < 256) (hc : c < 256) :
    let val := a <<< 16 ||| b <<< 8 ||| c
    let v := (val >>> 18 &&& 0x3F) <<< 18 ||| (val >>> 12 &&& 0x3F) <<< 12 |||
      (val >>> 6 &&& 0x3F) <<< 6 ||| (val &&& 0x3F)
    (v >>> 16) % 256 = a ∧ (v >>> 8) % 256 = b ∧ (v >>> 0) % 256 = c := by
  intro val v
  have hval : val = a * 65536 + b * 256 + c := pack3 a b c hb hc
  have hv : v = val / 262144 % 64 * 262144 + val / 4096 % 64 * 4096 + val / 64 % 64 * 64
      + val % 64 := by
    simp only [v, and63, Nat.shiftRight_eq_div_pow]
    rw [pack4 _ _ _ _ (Nat.mod_lt _ (by norm_num)) (Nat.mod_lt _ (by norm_num))
      (Nat.mod_lt _ (by norm_num))]
  simp only [Nat.shiftRight_eq_div_pow]
  omega

theorem decodeMap_encode (i : Nat) (h : i < 64) : decodeMap (encode i) = i := by
  have key : ∀ j : Fin 64, decodeMap (encode j.val) = j.val := by decide
  exact key ⟨i, h⟩

theorem decodeMap_padChar : decodeMap 61 = 255 := by decide

theorem decodeFrom_encode (n : Nat) (i : Nat) (h : i < 64) (rest : List Byte) (si : Nat)
    (dbuf : List Nat) (hd : dbuf.length ≠ 3) :
    decodeFrom n (encode i :: rest) si dbuf = decodeFrom n rest (si + 1) (dbuf ++ [i]) := by
  have hi : decodeMap (encode i) ≠ 0xff := by rw [decodeMap_encode i h]; omega
  rw [decodeFrom]
  simp only [decodeMap_encode i h]
  rw [decodeMap_encode i h] at hi
  simp [hi, hd]

theorem decodeFrom_encode_last (n : Nat) (i : Nat) (h : i < 64) (rest : List Byte) (si : Nat)
    (dbuf : List Nat) (hd : dbuf.length = 3) :
    decodeFrom n (encode i :: rest) si dbuf =
      (quantumBytes (dbuf ++ [i]) 4 ++ (decodeFrom n rest (si + 1) []).1,
        (decodeFrom n rest (si + 1) []).2) := by
  have hi : decodeMap (encode i) ≠ 0xff := by rw [decodeMap_encode i h]; omega
  rw [decodeFrom]
  simp only [decodeMap_encode i h]
  rw [decodeMap_encode i h] at hi
  simp [hi, hd]

theorem quantumBytes_three (a b c : Byte) :
    quantumBytes
      [(a.val <<< 16 ||| b.val <<< 8 ||| c.val) >>> 18 &&& 0x3F,
        (a.val <<< 16 ||| b.val <<< 8 ||| c.val) >>> 12 &&& 0x3F,
        (a.val <<< 16 ||| b.val <<< 8 ||| c.val) >>> 6 &&& 0x3F,
        (a.val <<< 16 ||| b.val <<< 8 ||| c.val) &&& 0x3F] 4 = [a, b, c] := by
  have h := sextets_roundtrip a.val b.val c.val a.isLt b.isLt c.isLt
  simp only at h
  obtain ⟨h1, h2, h3⟩ := h
  simp only [quantumBytes, List.getD_cons_zero, List.getD_cons_succ]
  rw [toByte_eq _ a h1, toByte_eq _ b h2, toByte_eq _ c h3]
  rfl

theorem quantumBytes_two (a b : Byte) :
    quantumBytes
      [(a.val <<< 16 ||| b.val <<< 8) >>> 18 &&& 0x3F,
        (a.val <<< 16 ||| b.val <<< 8) >>> 12 &&& 0x3F,
        (a.val <<< 16 ||| b.val <<< 8) >>> 6 &&& 0x3F] 3 = [a, b] := by
  have ha := a.isLt
  have hb := b.isLt
  have hval : a.val <<< 16 ||| b.val <<< 8 = a.val * 65536 + b.val * 256 := by
    have := pack3 a.val b.val 0 hb (by omega)
    simpa using this
  have hv := pack4 ((a.val * 65536 + b.val * 256) / 262144 % 64)
    ((a.val * 65536 + b.val * 256) / 4096 % 64) ((a.val * 65536 + b.val * 256) / 64 % 64) 0
    (Nat.mod_lt _ (by norm_num)) (Nat.mod_lt _ (by norm_num)) (by norm_num)
  simp only [quantumBytes, List.getD_cons_zero, List.getD_cons_succ, List.getD_nil, hval, and63,
    Nat.shiftRight_eq_div_pow]
  norm_num at hv ⊢
  rw [hv]
  refine ⟨toByte_eq _ a ?_, toByte_eq _ b ?_⟩ <;> omega

theorem quantumBytes_one (a : Byte) :
    quantumBytes [(a.val <<< 16) >>> 18 &&& 0x3F, (a.val <<< 16) >>> 12 &&& 0x3F] 2 = [a] := by
  have ha := a.isLt
  have hv := pack4 (a.val * 65536 / 262144 % 64) (a.val * 65536 / 4096 % 64) 0 0
    (Nat.mod_lt _ (by norm_num)) (by norm_num) (by norm_num)
  have e : a.val <<< 16 = a.val * 65536 := by rw [Nat.shiftLeft_eq]
  simp only [quantumBytes, List.getD_cons_zero, List.getD_cons_succ, List.getD_nil, and63,
    Nat.shiftRight_eq_div_pow, e]
  norm_num at hv ⊢
  rw [hv]
  exact toByte_eq _ a (by omega)

theorem decodeFrom_EncodeToString (n : Nat) (data : List Byte) (si : Nat) :
    decodeFrom n (EncodeToString data) si [] = (data, none) := by
  induction data using EncodeToString.induct generalizing si with
  | case1 a b c rest ih =>
    rw [EncodeToString]
    simp only [and63]
    rw [decodeFrom_encode n _ (Nat.mod_lt _ (by norm_num)) _ _ _ (by simp),
      decodeFrom_encode n _ (Nat.mod_lt _ (by norm_num)) _ _ _ (by simp),
      decodeFrom_encode n _ (Nat.mod_lt _ (by norm_num)) _ _ _ (by simp),
      decodeFrom_encode_last n _ (Nat.mod_lt _ (by norm_num)) _ _ _ (by simp), ih]
    have := quantumBytes_three a b c
    simp only [and63] at this
    simp [this]
  | case2 a b =>
    rw [EncodeToString]
    simp only [and63]
    rw [decodeFrom_encode n _ (Nat.mod_lt _ (by norm_num)) _ _ _ (by simp),
      decodeFrom_encode n _ (Nat.mod_lt _ (by norm_num)) _ _ _ (by simp),
      decodeFrom_encode n _ (Nat.mod_lt _ (by norm_num)) _ _ _ (by simp)]
    have := quantumBytes_two a b
    simp only [and63] at this
    simp [decodeFrom, decodeMap_padChar, padChar, skipNewlines, trailing, this]
  | case3 a =>
    rw [EncodeToString]
    simp only [and63]
    rw [decodeFrom_encode n _ (Nat.mod_lt _ (by norm_num)) _ _ _ (by simp),
      decodeFrom_encode n _ (Nat.mod_lt _ (by norm_num)) _ _ _ (by simp)]
    have := quantumBytes_one a
    simp only [and63] at this
    simp [decodeFrom, decodeMap_padChar, padChar, skipNewlines, trailing, this]
  | case4 => simp [EncodeToString, decodeFrom]

theorem DecodeString_EncodeToString (data : List Byte) :
    DecodeString (EncodeToString data) = (data, none) := by
  unfold DecodeString
  split
  · rename_i h
    cases data with
    | nil => rfl
    | cons a t =>
      exfalso
      match t with
      | [] => simp [EncodeToString] at h
      | [b] => simp [EncodeToString] at h
      | b :: c :: r => simp [EncodeToString] at h
  · exact decodeFrom_EncodeToString _ _ _

/-! ## The paths through `sendToPrinter` -/

theorem sendToPrinter_nul (os : Winspool) (name : GoString) (data : List Byte)
    (h0 : (0 : Byte) ∈ name) :
    sendToPrinter os name data = ⟨.returned (some .encodePrinterName), []⟩ := by
  simp [sendToPrinter, UTF16PtrFromString, h0]

theorem sendToPrinter_open_failed (os : Winspool) (name : GoString) (data : List Byte)
    (h0 : (0 : Byte) ∉ name) (ho : os.OpenPrinterW.r1 = 0) :
    sendToPrinter os name data =
      ⟨.returned (some (.openPrinter os.OpenPrinterW.lastErr)),
        [⟨.OpenPrinterW name, os.OpenPrinterW⟩]⟩ := by
  simp [sendToPrinter, UTF16PtrFromString, h0, ho]

theorem sendToPrinter_startDoc_failed (os : Winspool) (name : GoString) (data : List Byte)
    (h0 : (0 : Byte) ∉ name) (ho : os.OpenPrinterW.r1 ≠ 0) (hd : os.StartDocPrinterW.r1 = 0) :
    sendToPrinter os name data =
      ⟨.returned (some (.startDoc os.StartDocPrinterW.lastErr)),
        [⟨.OpenPrinterW name, os.OpenPrinterW⟩,
          ⟨.StartDocPrinterW os.OpenPrinterW.out 1 ⟨"Braille Vibe Job", none, "RAW"⟩,
            os.StartDocPrinterW⟩,
          ⟨.ClosePrinter os.OpenPrinterW.out, os.ClosePrinter⟩]⟩ := by
  simp [sendToPrinter, sendToPrinterBody, UTF16PtrFromString, h0, ho, hd]

theorem sendToPrinter_startPage_failed (os : Winspool) (name : GoString) (data : List Byte)
    (h0 : (0 : Byte) ∉ name) (ho : os.OpenPrinterW.r1 ≠ 0) (hd : os.StartDocPrinterW.r1 ≠ 0)
    (hp : os.StartPagePrinter.r1 = 0) :
    sendToPrinter os name data =
      ⟨.returned (some (.startPage os.StartPagePrinter.lastErr)),
        [⟨.OpenPrinterW name, os.OpenPrinterW⟩,
          ⟨.StartDocPrinterW os.OpenPrinterW.out 1 ⟨"Braille Vibe Job", none, "RAW"⟩,
            os.StartDocPrinterW⟩,
          ⟨.StartPagePrinter os.OpenPrinterW.out, os.StartPagePrinter⟩,
          ⟨.ClosePrinter os.OpenPrinterW.out, os.ClosePrinter⟩]⟩ := by
  simp [sendToPrinter, sendToPrinterBody, UTF16PtrFromString, h0, ho, hd, hp]

theorem sendToPrinter_empty_payload (os : Winspool) (name : GoString)
    (h0 : (0 : Byte) ∉ name) (ho : os.OpenPrinterW.r1 ≠ 0) (hd : os.StartDocPrinterW.r1 ≠ 0)
    (hp : os.StartPagePrinter.r1 ≠ 0) :
    sendToPrinter os name [] =
      ⟨.panicked,
        [⟨.OpenPrinterW name, os.OpenPrinterW⟩,
          ⟨.StartDocPrinterW os.OpenPrinterW.out 1 ⟨"Braille Vibe Job", none, "RAW"⟩,
            os.StartDocPrinterW⟩,
          ⟨.StartPagePrinter os.OpenPrinterW.out, os.StartPagePrinter⟩,
          ⟨.ClosePrinter os.OpenPrinterW.out, os.ClosePrinter⟩]⟩ := by
  simp [sendToPrinter, sendToPrinterBody, UTF16PtrFromString, h0, ho, hd, hp]

theorem sendToPrinter_write_failed (os : Winspool) (name : GoString) (data : List Byte)
    (h0 : (0 : Byte) ∉ name) (hdata : data ≠ []) (ho : os.OpenPrinterW.r1 ≠ 0)
    (hd : os.StartDocPrinterW.r1 ≠ 0) (hp : os.StartPagePrinter.r1 ≠ 0)
    (hw : os.WritePrinter.r1 = 0) :
    sendToPrinter os name data =
      ⟨.returned (some (.writePrinter os.WritePrinter.lastErr)),
        [⟨.OpenPrinterW name, os.OpenPrinterW⟩,
          ⟨.StartDocPrinterW os.OpenPrinterW.out 1 ⟨"Braille Vibe Job", none, "RAW"⟩,
            os.StartDocPrinterW⟩,
          ⟨.StartPagePrinter os.OpenPrinterW.out, os.StartPagePrinter⟩,
          ⟨.WritePrinter os.OpenPrinterW.out data data.length, os.WritePrinter⟩,
          ⟨.ClosePrinter os.OpenPrinterW.out, os.ClosePrinter⟩]⟩ := by
  obtain ⟨b, t, rfl⟩ := List.exists_cons_of_ne_nil hdata
  simp [sendToPrinter, sendToPrinterBody, UTF16PtrFromString, h0, ho, hd, hp, hw]

theorem sendToPrinter_short_write (os : Winspool) (name : GoString) (data : List Byte)
    (h0 : (0 : Byte) ∉ name) (hdata : data ≠ []) (ho : os.OpenPrinterW.r1 ≠ 0)
    (hd : os.StartDocPrinterW.r1 ≠ 0) (hp : os.StartPagePrinter.r1 ≠ 0)
    (hw : os.WritePrinter.r1 ≠ 0) (hn : os.WritePrinter.out % 2 ^ 32 ≠ data.length) :
    sendToPrinter os name data =
      ⟨.returned (some (.shortWrite (os.WritePrinter.out % 2 ^ 32) data.length)),
        [⟨.OpenPrinterW name, os.OpenPrinterW⟩,
          ⟨.StartDocPrinterW os.OpenPrinterW.out 1 ⟨"Braille Vibe Job", none, "RAW"⟩,
            os.StartDocPrinterW⟩,
          ⟨.StartPagePrinter os.OpenPrinterW.out, os.StartPagePrinter⟩,
          ⟨.WritePrinter os.OpenPrinterW.out data data.length, os.WritePrinter⟩,
          ⟨.ClosePrinter os.OpenPrinterW.out, os.ClosePrinter⟩]⟩ := by
  obtain ⟨b, t, rfl⟩ := List.exists_cons_of_ne_nil hdata
  simp only [List.length_cons, Nat.reducePow] at hn
  simp [sendToPrinter, sendToPrinterBody, UTF16PtrFromString, h0, ho, hd, hp, hw, hn]

theorem sendToPrinter_complete (os : Winspool) (name : GoString) (data : List Byte)
    (h0 : (0 : Byte) ∉ name) (hdata : data ≠ []) (ho : os.OpenPrinterW.r1 ≠ 0)
    (hd : os.StartDocPrinterW.r1 ≠ 0) (hp : os.StartPagePrinter.r1 ≠ 0)
    (hw : os.WritePrinter.r1 ≠ 0) (hn : os.WritePrinter.out % 2 ^ 32 = data.length) :
    sendToPrinter os name data =
      ⟨.returned none,
        [⟨.OpenPrinterW name, os.OpenPrinterW⟩,
          ⟨.StartDocPrinterW os.OpenPrinterW.out 1 ⟨"Braille Vibe Job", none, "RAW"⟩,
            os.StartDocPrinterW⟩,
          ⟨.StartPagePrinter os.OpenPrinterW.out, os.StartPagePrinter⟩,
          ⟨.WritePrinter os.OpenPrinterW.out data data.length, os.WritePrinter⟩,
          ⟨.EndPagePrinter os.OpenPrinterW.out, os.EndPagePrinter⟩,
          ⟨.EndDocPrinter os.OpenPrinterW.out, os.EndDocPrinter⟩,
          ⟨.ClosePrinter os.OpenPrinterW.out, os.ClosePrinter⟩]⟩ := by
  obtain ⟨b, t, rfl⟩ := List.exists_cons_of_ne_nil hdata
  simp only [List.length_cons, Nat.reducePow] at hn
  simp [sendToPrinter, sendToPrinterBody, UTF16PtrFromString, h0, ho, hd, hp, hw, hn]

/-! ## Properties of `sendToPrinter` -/

/-- C1, as stated, fails: with the printer name holding a NUL byte, in a
spooler where all four calls report success and `WritePrinter` reports 0 of 1
bytes, `sendToPrinter` returns "encode printer name", not the short-write
error. -/
theorem short_write_nul_name :
    (spoolerOk 0).OpenPrinterW.r1 ≠ 0 ∧ (spoolerOk 0).StartDocPrinterW.r1 ≠ 0 ∧
    (spoolerOk 0).StartPagePrinter.r1 ≠ 0 ∧ (spoolerOk 0).WritePrinter.r1 ≠ 0 ∧
    (spoolerOk 0).WritePrinter.out % 2 ^ 32 ≠ ([1] : List Byte).length ∧
    sendToPrinter (spoolerOk 0) [0] [1] = ⟨.returned (some .encodePrinterName), []⟩ ∧
    (sendToPrinter (spoolerOk 0) [0] [1]).result ≠ .returned (some (.shortWrite 0 1)) := by
  decide

/-- C1 (amended): for every printer name, non-empty payload and spooler in
which `OpenPrinterW`, `StartDocPrinterW`, `StartPagePrinter` and `WritePrinter`
report success but the written count differs from `len(data)`,
`sendToPrinter` returns a failure and never success; when the name holds no
NUL byte the failure is "WritePrinter wrote N of M bytes". -/
theorem short_write_is_failure (os : Winspool) (printerName : GoString) (data : List Byte)
    (hdata : data ≠ []) (ho : os.OpenPrinterW.r1 ≠ 0) (hd : os.StartDocPrinterW.r1 ≠ 0)
    (hp : os.StartPagePrinter.r1 ≠ 0) (hw : os.WritePrinter.r1 ≠ 0)
    (hn : os.WritePrinter.out % 2 ^ 32 ≠ data.length) :
    (∃ err, (sendToPrinter os printerName data).result = .returned (some err)) ∧
    (sendToPrinter os printerName data).result ≠ .returned none ∧
    ((0 : Byte) ∉ printerName →
      (sendToPrinter os printerName data).result =
        .returned (some (.shortWrite (os.WritePrinter.out % 2 ^ 32) data.length)) ∧
      (PrintError.shortWrite (os.WritePrinter.out % 2 ^ 32) data.length).Error os.errorText =
        "WritePrinter wrote " ++ toString (os.WritePrinter.out % 2 ^ 32) ++ " of " ++
          toString data.length ++ " bytes") := by
  by_cases h0 : (0 : Byte) ∈ printerName
  · rw [sendToPrinter_nul os printerName data h0]
    exact ⟨⟨_, rfl⟩, by simp, fun h => absurd h0 h⟩
  · rw [sendToPrinter_short_write os printerName data h0 hdata ho hd hp hw hn]
    exact ⟨⟨_, rfl⟩, by simp, fun _ => ⟨rfl, rfl⟩⟩

/-- C1 (amended) at printer "Embosser1", payload "hello" and a spooler that
reports 3 bytes written. -/
theorem short_write_is_failure_witness :
    (∃ err, (sendToPrinter (spoolerOk 3) (ascii "Embosser1") (ascii "hello")).result =
      .returned (some err)) ∧
    (sendToPrinter (spoolerOk 3) (ascii "Embosser1") (ascii "hello")).result ≠ .returned none ∧
    ((0 : Byte) ∉ ascii "Embosser1" →
      (sendToPrinter (spoolerOk 3) (ascii "Embosser1") (ascii "hello")).result =
        .returned (some (.shortWrite ((spoolerOk 3).WritePrinter.out % 2 ^ 32)
          (ascii "hello").length)) ∧
      (PrintError.shortWrite ((spoolerOk 3).WritePrinter.out % 2 ^ 32)
          (ascii "hello").length).Error (spoolerOk 3).errorText =
        "WritePrinter wrote " ++ toString ((spoolerOk 3).WritePrinter.out % 2 ^ 32) ++ " of " ++
          toString (ascii "hello").length ++ " bytes") :=
  short_write_is_failure (spoolerOk 3) (ascii "Embosser1") (ascii "hello") (by decide)
    (by decide) (by decide) (by decide) (by decide) (by decide)

/-- C2: for every printer name, non-empty payload and spooler, the trace of
`sendToPrinter` holds as many `ClosePrinter` calls as successful `OpenPrinterW`
calls: exactly one, and as the last call, when `OpenPrinterW` succeeded, and
none when it failed.  (With a NUL-free name `OpenPrinterW` is always called, so
the two cases are the spooler's two answers.) -/
theorem release_count_eq_acquire_count (os : Winspool) (printerName : GoString)
    (data : List Byte) (hdata : data ≠ []) :
    ((sendToPrinter os printerName data).trace.countP Event.isRelease =
      (sendToPrinter os printerName data).trace.countP Event.isAcquire) ∧
    ((∃ e ∈ (sendToPrinter os printerName data).trace, e.isAcquire = true) →
      (sendToPrinter os printerName data).trace.countP Event.isRelease = 1 ∧
      ∃ e, (sendToPrinter os printerName data).trace.getLast? = some e ∧ e.isRelease = true) ∧
    ((∃ e ∈ (sendToPrinter os printerName data).trace, e.isFailedOpen = true) →
      (sendToPrinter os printerName data).trace.countP Event.isRelease = 0) ∧
    ((0 : Byte) ∉ printerName →
      (os.OpenPrinterW.r1 ≠ 0 →
        ∃ e ∈ (sendToPrinter os printerName data).trace, e.isAcquire = true) ∧
      (os.OpenPrinterW.r1 = 0 →
        ∃ e ∈ (sendToPrinter os printerName data).trace, e.isFailedOpen = true)) := by
  by_cases h0 : (0 : Byte) ∈ printerName
  · rw [sendToPrinter_nul os printerName data h0]
    simp [h0]
  by_cases ho : os.OpenPrinterW.r1 = 0
  · rw [sendToPrinter_open_failed os printerName data h0 ho]
    simp [Event.isRelease, Event.isAcquire, Event.isFailedOpen, ho]
  by_cases hd : os.StartDocPrinterW.r1 = 0
  · rw [sendToPrinter_startDoc_failed os printerName data h0 ho hd]
    simp [Event.isRelease, Event.isAcquire, Event.isFailedOpen, ho, List.countP_cons]
  by_cases hp : os.StartPagePrinter.r1 = 0
  · rw [sendToPrinter_startPage_failed os printerName data h0 ho hd hp]
    simp [Event.isRelease, Event.isAcquire, Event.isFailedOpen, ho, List.countP_cons]
  by_cases hw : os.WritePrinter.r1 = 0
  · rw [sendToPrinter_write_failed os printerName data h0 hdata ho hd hp hw]
    simp [Event.isRelease, Event.isAcquire, Event.isFailedOpen, ho, List.countP_cons]
  by_cases hn : os.WritePrinter.out % 2 ^ 32 = data.length
  · rw [sendToPrinter_complete os printerName data h0 hdata ho hd hp hw hn]
    simp [Event.isRelease, Event.isAcquire, Event.isFailedOpen, ho, List.countP_cons]
  · rw [sendToPrinter_short_write os printerName data h0 hdata ho hd hp hw hn]
    simp [Event.isRelease, Event.isAcquire, Event.isFailedOpen, ho, List.countP_cons]

/-- C2 at printer "Embosser1", payload "hello" and a spooler whose
`StartPagePrinter` fails. -/
theorem release_count_eq_acquire_count_witness :
    ((sendToPrinter spoolerPageFails (ascii "Embosser1") (ascii "hello")).trace.countP
        Event.isRelease =
      (sendToPrinter spoolerPageFails (ascii "Embosser1") (ascii "hello")).trace.countP
        Event.isAcquire) ∧
    ((∃ e ∈ (sendToPrinter spoolerPageFails (ascii "Embosser1") (ascii "hello")).trace,
        e.isAcquire = true) →
      (sendToPrinter spoolerPageFails (ascii "Embosser1") (ascii "hello")).trace.countP
        Event.isRelease = 1 ∧
      ∃ e, (sendToPrinter spoolerPageFails (ascii "Embosser1") (ascii "hello")).trace.getLast? =
        some e ∧ e.isRelease = true) ∧
    ((∃ e ∈ (sendToPrinter spoolerPageFails (ascii "Embosser1") (ascii "hello")).trace,
        e.isFailedOpen = true) →
      (sendToPrinter spoolerPageFails (ascii "Embosser1") (ascii "hello")).trace.countP
        Event.isRelease = 0) ∧
    ((0 : Byte) ∉ ascii "Embosser1" →
      (spoolerPageFails.OpenPrinterW.r1 ≠ 0 →
        ∃ e ∈ (sendToPrinter spoolerPageFails (ascii "Embosser1") (ascii "hello")).trace,
          e.isAcquire = true) ∧
      (spoolerPageFails.OpenPrinterW.r1 = 0 →
        ∃ e ∈ (sendToPrinter spoolerPageFails (ascii "Embosser1") (ascii "hello")).trace,
          e.isFailedOpen = true)) :=
  release_count_eq_acquire_count spoolerPageFails (ascii "Embosser1") (ascii "hello")
    (by decide)

/-- C3, as stated, fails: with the printer name holding a NUL byte and a
spooler whose `OpenPrinterW` fails, `sendToPrinter` returns "encode printer
name" and its trace is empty rather than the single `OpenPrinterW` call. -/
theorem open_failure_nul_name :
    spoolerOpenFails.OpenPrinterW.r1 = 0 ∧
    sendToPrinter spoolerOpenFails [0] [1] = ⟨.returned (some .encodePrinterName), []⟩ ∧
    (sendToPrinter spoolerOpenFails [0] [1]).result ≠
      .returned (some (.openPrinter spoolerOpenFails.OpenPrinterW.lastErr)) ∧
    (sendToPrinter spoolerOpenFails [0] [1]).trace ≠
      [⟨.OpenPrinterW [0], spoolerOpenFails.OpenPrinterW⟩] := by
  decide

/-- C3 (amended): for every printer name and payload, if the spooler reports
failure of `OpenPrinterW`, `sendToPrinter` returns a failure and attempts none
of the later calls; when the name holds no NUL byte the failure is
"OpenPrinterW failed" and the trace is the single `OpenPrinterW` call. -/
theorem open_failure_stops (os : Winspool) (printerName : GoString) (data : List Byte)
    (ho : os.OpenPrinterW.r1 = 0) :
    (∃ err, (sendToPrinter os printerName data).result = .returned (some err)) ∧
    (∀ e ∈ (sendToPrinter os printerName data).trace, ∃ n, e.call = .OpenPrinterW n) ∧
    ((0 : Byte) ∉ printerName →
      (sendToPrinter os printerName data).result =
        .returned (some (.openPrinter os.OpenPrinterW.lastErr)) ∧
      (PrintError.openPrinter os.OpenPrinterW.lastErr).Error os.errorText =
        "OpenPrinterW failed: " ++ os.errorText os.OpenPrinterW.lastErr ∧
      (sendToPrinter os printerName data).trace =
        [⟨.OpenPrinterW printerName, os.OpenPrinterW⟩]) := by
  by_cases h0 : (0 : Byte) ∈ printerName
  · rw [sendToPrinter_nul os printerName data h0]
    exact ⟨⟨_, rfl⟩, by simp, fun h => absurd h0 h⟩
  · rw [sendToPrinter_open_failed os printerName data h0 ho]
    exact ⟨⟨_, rfl⟩, by simp, fun _ => ⟨rfl, rfl, rfl⟩⟩

/-- C3 (amended) at printer "Embosser1", payload "hello" and a spooler whose
`OpenPrinterW` fails. -/
theorem open_failure_stops_witness :
    (∃ err, (sendToPrinter spoolerOpenFails (ascii "Embosser1") (ascii "hello")).result =
      .returned (some err)) ∧
    (∀ e ∈ (sendToPrinter spoolerOpenFails (ascii "Embosser1") (ascii "hello")).trace,
      ∃ n, e.call = .OpenPrinterW n) ∧
    ((0 : Byte) ∉ ascii "Embosser1" →
      (sendToPrinter spoolerOpenFails (ascii "Embosser1") (ascii "hello")).result =
        .returned (some (.openPrinter spoolerOpenFails.OpenPrinterW.lastErr)) ∧
      (PrintError.openPrinter spoolerOpenFails.OpenPrinterW.lastErr).Error
          spoolerOpenFails.errorText =
        "OpenPrinterW failed: " ++
          spoolerOpenFails.errorText spoolerOpenFails.OpenPrinterW.lastErr ∧
      (sendToPrinter spoolerOpenFails (ascii "Embosser1") (ascii "hello")).trace =
        [⟨.OpenPrinterW (ascii "Embosser1"), spoolerOpenFails.OpenPrinterW⟩]) :=
  open_failure_stops spoolerOpenFails (ascii "Embosser1") (ascii "hello") (by decide)

/-- The result of `sendToPrinter` does not depend on the replies of
`EndPagePrinter` and `EndDocPrinter`. -/
theorem sendToPrinter_result_end_replies (os : Winspool) (name : GoString) (data : List Byte)
    (endPage endDoc : Reply) :
    (sendToPrinter { os with EndPagePrinter := endPage, EndDocPrinter := endDoc }
      name data).result = (sendToPrinter os name data).result := by
  simp only [sendToPrinter, sendToPrinterBody]
  split
  · rfl
  · cases data with
    | nil => split_ifs <;> rfl
    | cons b t => split_ifs <;> rfl

/-- C4, as stated, fails: with the printer name holding a NUL byte, all four
calls succeed in the spooler and the written count equals `len(data)`, yet
`sendToPrinter` does not return success. -/
theorem success_iff_nul_name :
    (spoolerOk 1).OpenPrinterW.r1 ≠ 0 ∧ (spoolerOk 1).StartDocPrinterW.r1 ≠ 0 ∧
    (spoolerOk 1).StartPagePrinter.r1 ≠ 0 ∧ (spoolerOk 1).WritePrinter.r1 ≠ 0 ∧
    (spoolerOk 1).WritePrinter.out % 2 ^ 32 = ([1] : List Byte).length ∧
    (sendToPrinter (spoolerOk 1) [0] [1]).result = .returned (some .encodePrinterName) ∧
    (sendToPrinter (spoolerOk 1) [0] [1]).result ≠ .returned none := by
  decide

/-- C4 (amended): for every printer name, non-empty payload and spooler,
`sendToPrinter` returns success exactly when the name holds no NUL byte,
`OpenPrinterW`, `StartDocPrinterW`, `StartPagePrinter` and `WritePrinter` all
succeed and the written count equals `len(data)`; the replies of
`EndPagePrinter` and `EndDocPrinter` never change the result. -/
theorem success_iff (os : Winspool) (printerName : GoString) (data : List Byte)
    (hdata : data ≠ []) :
    ((sendToPrinter os printerName data).result = .returned none ↔
      ((0 : Byte) ∉ printerName ∧ os.OpenPrinterW.r1 ≠ 0 ∧ os.StartDocPrinterW.r1 ≠ 0 ∧
        os.StartPagePrinter.r1 ≠ 0 ∧ os.WritePrinter.r1 ≠ 0 ∧
        os.WritePrinter.out % 2 ^ 32 = data.length)) ∧
    (∀ endPage endDoc : Reply,
      (sendToPrinter { os with EndPagePrinter := endPage, EndDocPrinter := endDoc }
        printerName data).result = (sendToPrinter os printerName data).result) := by
  refine ⟨?_, sendToPrinter_result_end_replies os printerName data⟩
  by_cases h0 : (0 : Byte) ∈ printerName
  · rw [sendToPrinter_nul os printerName data h0]
    simp [h0]
  by_cases ho : os.OpenPrinterW.r1 = 0
  · rw [sendToPrinter_open_failed os printerName data h0 ho]
    simp [ho]
  by_cases hd : os.StartDocPrinterW.r1 = 0
  · rw [sendToPrinter_startDoc_failed os printerName data h0 ho hd]
    simp [hd]
  by_cases hp : os.StartPagePrinter.r1 = 0
  · rw [sendToPrinter_startPage_failed os printerName data h0 ho hd hp]
    simp [hp]
  by_cases hw : os.WritePrinter.r1 = 0
  · rw [sendToPrinter_write_failed os printerName data h0 hdata ho hd hp hw]
    simp [hw]
  by_cases hn : os.WritePrinter.out % 2 ^ 32 = data.length
  · rw [sendToPrinter_complete os printerName data h0 hdata ho hd hp hw hn]
    exact ⟨fun _ => ⟨h0, ho, hd, hp, hw, hn⟩, fun _ => rfl⟩
  · rw [sendToPrinter_short_write os printerName data h0 hdata ho hd hp hw hn]
    exact ⟨fun h => by simp at h, fun h => absurd h.2.2.2.2.2 hn⟩

/-- C4 (amended) at printer "Embosser1", payload "hello" and a spooler in
which every call succeeds and 5 bytes are written. -/
theorem success_iff_witness :
    ((sendToPrinter (spoolerOk 5) (ascii "Embosser1") (ascii "hello")).result =
        .returned none ↔
      ((0 : Byte) ∉ ascii "Embosser1" ∧ (spoolerOk 5).OpenPrinterW.r1 ≠ 0 ∧
        (spoolerOk 5).StartDocPrinterW.r1 ≠ 0 ∧ (spoolerOk 5).StartPagePrinter.r1 ≠ 0 ∧
        (spoolerOk 5).WritePrinter.r1 ≠ 0 ∧
        (spoolerOk 5).WritePrinter.out % 2 ^ 32 = (ascii "hello").length)) ∧
    (∀ endPage endDoc : Reply,
      (sendToPrinter { spoolerOk 5 with EndPagePrinter := endPage, EndDocPrinter := endDoc }
        (ascii "Embosser1") (ascii "hello")).result =
      (sendToPrinter (spoolerOk 5) (ascii "Embosser1") (ascii "hello")).result) :=
  success_iff (spoolerOk 5) (ascii "Embosser1") (ascii "hello") (by decide)

/-- C7, as stated, fails: with an empty printer name and a one-byte payload
`sendToPrinter` makes all seven spooler calls and returns success; with an empty
payload it makes four spooler calls before it faults on `data[0]`. -/
theorem missing_argument_not_checked :
    (sendToPrinter (spoolerOk 1) [] [1]).result = .returned none ∧
    calls (sendToPrinter (spoolerOk 1) [] [1]).trace = protocol [] 7 [1] ∧
    (sendToPrinter (spoolerOk 0) (ascii "Embosser1") []).result = .panicked ∧
    calls (sendToPrinter (spoolerOk 0) (ascii "Embosser1") []).trace =
      [.OpenPrinterW (ascii "Embosser1"),
        .StartDocPrinterW 7 1 ⟨"Braille Vibe Job", none, "RAW"⟩,
        .StartPagePrinter 7, .ClosePrinter 7] := by
  decide

/-- C7 (amended): `sendToPrinter` has no missing-argument check.  For an empty
printer name or an empty payload (the name holding no NUL byte) its first
action is the call `OpenPrinterW(name)`; the first of `OpenPrinterW`,
`StartDocPrinterW`, `StartPagePrinter` to fail is the failure it returns; and
with a non-empty payload it returns success when every step succeeds and the
write is complete. -/
theorem no_argument_check (os : Winspool) (printerName : GoString) (data : List Byte)
    (h : printerName = [] ∨ data = []) (h0 : (0 : Byte) ∉ printerName) :
    (∃ rest, (sendToPrinter os printerName data).trace =
      ⟨.OpenPrinterW printerName, os.OpenPrinterW⟩ :: rest) ∧
    (os.OpenPrinterW.r1 = 0 →
      sendToPrinter os printerName data =
        ⟨.returned (some (.openPrinter os.OpenPrinterW.lastErr)),
          [⟨.OpenPrinterW printerName, os.OpenPrinterW⟩]⟩) ∧
    (os.OpenPrinterW.r1 ≠ 0 → os.StartDocPrinterW.r1 = 0 →
      (sendToPrinter os printerName data).result =
        .returned (some (.startDoc os.StartDocPrinterW.lastErr))) ∧
    (os.OpenPrinterW.r1 ≠ 0 → os.StartDocPrinterW.r1 ≠ 0 → os.StartPagePrinter.r1 = 0 →
      (sendToPrinter os printerName data).result =
        .returned (some (.startPage os.StartPagePrinter.lastErr))) ∧
    (data ≠ [] → os.OpenPrinterW.r1 ≠ 0 → os.StartDocPrinterW.r1 ≠ 0 →
      os.StartPagePrinter.r1 ≠ 0 → os.WritePrinter.r1 ≠ 0 →
      os.WritePrinter.out % 2 ^ 32 = data.length →
      (sendToPrinter os printerName data).result = .returned none ∧
      calls (sendToPrinter os printerName data).trace =
        protocol printerName os.OpenPrinterW.out data) := by
  have _ := h
  refine ⟨?_, ?_, ?_, ?_, ?_⟩
  · simp only [sendToPrinter, UTF16PtrFromString, h0, if_false]
    split_ifs <;> simp
  · intro ho
    exact sendToPrinter_open_failed os printerName data h0 ho
  · intro ho hd
    rw [sendToPrinter_startDoc_failed os printerName data h0 ho hd]
  · intro ho hd hp
    rw [sendToPrinter_startPage_failed os printerName data h0 ho hd hp]
  · intro hdata ho hd hp hw hn
    rw [sendToPrinter_complete os printerName data h0 hdata ho hd hp hw hn]
    exact ⟨rfl, rfl⟩

/-- C7 (amended) at the empty printer name, payload "hello" and a spooler in
which every call succeeds. -/
theorem no_argument_check_witness :
    (∃ rest, (sendToPrinter (spoolerOk 5) [] (ascii "hello")).trace =
      ⟨.OpenPrinterW [], (spoolerOk 5).OpenPrinterW⟩ :: rest) ∧
    ((spoolerOk 5).OpenPrinterW.r1 = 0 →
      sendToPrinter (spoolerOk 5) [] (ascii "hello") =
        ⟨.returned (some (.openPrinter (spoolerOk 5).OpenPrinterW.lastErr)),
          [⟨.OpenPrinterW [], (spoolerOk 5).OpenPrinterW⟩]⟩) ∧
    ((spoolerOk 5).OpenPrinterW.r1 ≠ 0 → (spoolerOk 5).StartDocPrinterW.r1 = 0 →
      (sendToPrinter (spoolerOk 5) [] (ascii "hello")).result =
        .returned (some (.startDoc (spoolerOk 5).StartDocPrinterW.lastErr))) ∧
    ((spoolerOk 5).OpenPrinterW.r1 ≠ 0 → (spoolerOk 5).StartDocPrinterW.r1 ≠ 0 →
      (spoolerOk 5).StartPagePrinter.r1 = 0 →
      (sendToPrinter (spoolerOk 5) [] (ascii "hello")).result =
        .returned (some (.startPage (spoolerOk 5).StartPagePrinter.lastErr))) ∧
    (ascii "hello" ≠ [] → (spoolerOk 5).OpenPrinterW.r1 ≠ 0 →
      (spoolerOk 5).StartDocPrinterW.r1 ≠ 0 → (spoolerOk 5).StartPagePrinter.r1 ≠ 0 →
      (spoolerOk 5).WritePrinter.r1 ≠ 0 →
      (spoolerOk 5).WritePrinter.out % 2 ^ 32 = (ascii "hello").length →
      (sendToPrinter (spoolerOk 5) [] (ascii "hello")).result = .returned none ∧
      calls (sendToPrinter (spoolerOk 5) [] (ascii "hello")).trace =
        protocol [] (spoolerOk 5).OpenPrinterW.out (ascii "hello")) :=
  no_argument_check (spoolerOk 5) [] (ascii "hello") (Or.inl rfl) (by decide)

/-- C8, as stated, fails: when only `StartPagePrinter` fails the trace is
`OpenPrinterW`, `StartDocPrinterW`, `StartPagePrinter`, `ClosePrinter`, with no
`EndDocPrinter` call; and with a NUL byte in the printer name the trace is
empty, without a `ClosePrinter` call either. -/
theorem page_failure_no_end_doc :
    spoolerPageFails.OpenPrinterW.r1 ≠ 0 ∧ spoolerPageFails.StartDocPrinterW.r1 ≠ 0 ∧
    spoolerPageFails.StartPagePrinter.r1 = 0 ∧
    calls (sendToPrinter spoolerPageFails (ascii "Embosser1") (ascii "hello")).trace =
      [.OpenPrinterW (ascii "Embosser1"),
        .StartDocPrinterW 7 1 ⟨"Braille Vibe Job", none, "RAW"⟩,
        .StartPagePrinter 7, .ClosePrinter 7] ∧
    Call.EndDocPrinter 7 ∉
      calls (sendToPrinter spoolerPageFails (ascii "Embosser1") (ascii "hello")).trace ∧
    calls (sendToPrinter spoolerPageFails [0] (ascii "hello")).trace = [] := by
  decide

/-- C8 (amended): for every printer name without a NUL byte, non-empty payload
and spooler in which `OpenPrinterW` and `StartDocPrinterW` succeed but
`StartPagePrinter` fails, `sendToPrinter` releases the handle before it reports
"StartPagePrinter failed": its trace is exactly `OpenPrinterW`,
`StartDocPrinterW`, `StartPagePrinter`, `ClosePrinter`, and `EndDocPrinter` is
not called. -/
theorem page_failure_releases_handle (os : Winspool) (printerName : GoString)
    (data : List Byte) (h0 : (0 : Byte) ∉ printerName) (hdata : data ≠ [])
    (ho : os.OpenPrinterW.r1 ≠ 0) (hd : os.StartDocPrinterW.r1 ≠ 0)
    (hp : os.StartPagePrinter.r1 = 0) :
    (sendToPrinter os printerName data).result =
      .returned (some (.startPage os.StartPagePrinter.lastErr)) ∧
    calls (sendToPrinter os printerName data).trace =
      [.OpenPrinterW printerName,
        .StartDocPrinterW os.OpenPrinterW.out 1 ⟨"Braille Vibe Job", none, "RAW"⟩,
        .StartPagePrinter os.OpenPrinterW.out, .ClosePrinter os.OpenPrinterW.out] ∧
    (∀ h, Call.EndDocPrinter h ∉ calls (sendToPrinter os printerName data).trace) := by
  have _ := hdata
  rw [sendToPrinter_startPage_failed os printerName data h0 ho hd hp]
  exact ⟨rfl, rfl, by simp [calls]⟩

/-- C8 (amended) at printer "Embosser1", payload "hello" and a spooler whose
`StartPagePrinter` fails. -/
theorem page_failure_releases_handle_witness :
    (sendToPrinter spoolerPageFails (ascii "Embosser1") (ascii "hello")).result =
      .returned (some (.startPage spoolerPageFails.StartPagePrinter.lastErr)) ∧
    calls (sendToPrinter spoolerPageFails (ascii "Embosser1") (ascii "hello")).trace =
      [.OpenPrinterW (ascii "Embosser1"),
        .StartDocPrinterW spoolerPageFails.OpenPrinterW.out 1 ⟨"Braille Vibe Job", none, "RAW"⟩,
        .StartPagePrinter spoolerPageFails.OpenPrinterW.out,
        .ClosePrinter spoolerPageFails.OpenPrinterW.out] ∧
    (∀ h, Call.EndDocPrinter h ∉
      calls (sendToPrinter spoolerPageFails (ascii "Embosser1") (ascii "hello")).trace) :=
  page_failure_releases_handle spoolerPageFails (ascii "Embosser1") (ascii "hello")
    (by decide) (by decide) (by decide) (by decide) (by decide)

/-- C10, as stated, fails: with the printer name holding a NUL byte and every
spooler call succeeding with a complete write, the trace is empty instead of
the seven calls. -/
theorem full_trace_nul_name :
    (∀ k, stepOk (spoolerOk 1) [1] k = true) ∧
    (spoolerOk 1).EndPagePrinter.r1 ≠ 0 ∧ (spoolerOk 1).EndDocPrinter.r1 ≠ 0 ∧
    (spoolerOk 1).ClosePrinter.r1 ≠ 0 ∧
    calls (sendToPrinter (spoolerOk 1) [0] [1]).trace = [] ∧
    calls (sendToPrinter (spoolerOk 1) [0] [1]).trace ≠ protocol [0] 7 [1] := by
  refine ⟨?_, by decide, by decide, by decide, by decide, by decide⟩
  intro k
  match k with
  | 0 | 1 | 2 | 3 => decide
  | _ + 4 => rfl

/-- C10 (amended): for every printer name without a NUL byte and every
non-empty payload, when every spooler call succeeds and the write is complete
the trace is exactly the seven calls of `protocol`, each once and in order; and
in every failing run the trace is the prefix of that sequence ending at the
first failing step, followed only by `ClosePrinter` when the handle had been
opened. -/
theorem trace_is_protocol_prefix (os : Winspool) (printerName : GoString) (data : List Byte)
    (h0 : (0 : Byte) ∉ printerName) (hdata : data ≠ []) :
    ((∀ k, stepOk os data k = true) →
      (sendToPrinter os printerName data).result = .returned none ∧
      calls (sendToPrinter os printerName data).trace =
        protocol printerName os.OpenPrinterW.out data) ∧
    ((sendToPrinter os printerName data).result ≠ .returned none →
      ∃ k, k < 4 ∧ stepOk os data k = false ∧ (∀ i, i < k → stepOk os data i = true) ∧
        calls (sendToPrinter os printerName data).trace =
          (protocol printerName os.OpenPrinterW.out data).take (k + 1) ++
            (if os.OpenPrinterW.r1 ≠ 0 then [Call.ClosePrinter os.OpenPrinterW.out] else [])) := by
  by_cases ho : os.OpenPrinterW.r1 = 0
  · rw [sendToPrinter_open_failed os printerName data h0 ho]
    refine ⟨fun hall => ?_, fun _ => ⟨0, by omega, by simp [stepOk, ho], by simp, ?_⟩⟩
    · have := hall 0
      simp [stepOk, ho] at this
    · simp [calls, protocol, ho]
  by_cases hd : os.StartDocPrinterW.r1 = 0
  · rw [sendToPrinter_startDoc_failed os printerName data h0 ho hd]
    refine ⟨fun hall => ?_, fun _ => ⟨1, by omega, by simp [stepOk, hd], ?_, ?_⟩⟩
    · have := hall 1
      simp [stepOk, hd] at this
    · intro i hi
      interval_cases i
      simp [stepOk, ho]
    · simp [calls, protocol, ho]
  by_cases hp : os.StartPagePrinter.r1 = 0
  · rw [sendToPrinter_startPage_failed os printerName data h0 ho hd hp]
    refine ⟨fun hall => ?_, fun _ => ⟨2, by omega, by simp [stepOk, hp], ?_, ?_⟩⟩
    · have := hall 2
      simp [stepOk, hp] at this
    · intro i hi
      interval_cases i <;> simp [stepOk, ho, hd]
    · simp [calls, protocol, ho]
  by_cases hw : os.WritePrinter.r1 = 0
  · rw [sendToPrinter_write_failed os printerName data h0 hdata ho hd hp hw]
    refine ⟨fun hall => ?_, fun _ => ⟨3, by omega, by simp [stepOk, hw], ?_, ?_⟩⟩
    · have := hall 3
      simp [stepOk, hw] at this
    · intro i hi
      interval_cases i <;> simp [stepOk, ho, hd, hp]
    · simp [calls, protocol, ho]
  by_cases hn : os.WritePrinter.out % 2 ^ 32 = data.length
  · rw [sendToPrinter_complete os printerName data h0 hdata ho hd hp hw hn]
    exact ⟨fun _ => ⟨rfl, rfl⟩, fun h => absurd rfl h⟩
  · rw [sendToPrinter_short_write os printerName data h0 hdata ho hd hp hw hn]
    have hn' : ¬ os.WritePrinter.out % 4294967296 = data.length := by
      simpa using hn
    refine ⟨fun hall => ?_, fun _ => ⟨3, by omega, by simp [stepOk, hw, hn'], ?_, ?_⟩⟩
    · have := hall 3
      simp [stepOk, hw, hn'] at this
    · intro i hi
      interval_cases i <;> simp [stepOk, ho, hd, hp]
    · simp [calls, protocol, ho]

/-- C10 (amended) at printer "Embosser1", payload "hello" and a spooler in
which every call succeeds and 5 bytes are written. -/
theorem trace_is_protocol_prefix_witness :
    ((∀ k, stepOk (spoolerOk 5) (ascii "hello") k = true) →
      (sendToPrinter (spoolerOk 5) (ascii "Embosser1") (ascii "hello")).result =
        .returned none ∧
      calls (sendToPrinter (spoolerOk 5) (ascii "Embosser1") (ascii "hello")).trace =
        protocol (ascii "Embosser1") (spoolerOk 5).OpenPrinterW.out (ascii "hello")) ∧
    ((sendToPrinter (spoolerOk 5) (ascii "Embosser1") (ascii "hello")).result ≠
        .returned none →
      ∃ k, k < 4 ∧ stepOk (spoolerOk 5) (ascii "hello") k = false ∧
        (∀ i, i < k → stepOk (spoolerOk 5) (ascii "hello") i = true) ∧
        calls (sendToPrinter (spoolerOk 5) (ascii "Embosser1") (ascii "hello")).trace =
          (protocol (ascii "Embosser1") (spoolerOk 5).OpenPrinterW.out (ascii "hello")).take
              (k + 1) ++
            (if (spoolerOk 5).OpenPrinterW.r1 ≠ 0 then
              [Call.ClosePrinter (spoolerOk 5).OpenPrinterW.out] else [])) :=
  trace_is_protocol_prefix (spoolerOk 5) (ascii "Embosser1") (ascii "hello") (by decide)
    (by decide)

/-! ## Properties of `printHandler` -/

theorem EncodeToString_ne_nil (b : List Byte) (hb : b ≠ []) : EncodeToString b ≠ [] := by
  match b, hb with
  | [_], _ => simp [EncodeToString]
  | [_, _], _ => simp [EncodeToString]
  | _ :: _ :: _ :: _, _ => simp [EncodeToString]

/-- C5: for every non-empty printer name `p` and non-empty buffer `b`, a POST
request whose body decodes to `printer = p`, `data = base64(b)` makes
`printHandler` call `sendToPrinter` exactly once, with `(p, b)`; and when that
dispatch succeeds the response is 200 with the body `"status":"queued"`. -/
theorem encoded_request_dispatches_bytes (os : Winspool) (p : GoString) (b : List Byte)
    (hp : p ≠ []) (hb : b ≠ []) :
    (printHandler os ⟨"POST", .ok ⟨p, EncodeToString b⟩⟩).dispatched = [(p, b)] ∧
    (printHandler os ⟨"POST", .ok ⟨p, EncodeToString b⟩⟩).trace =
      (sendToPrinter os p b).trace ∧
    ((sendToPrinter os p b).result = .returned none →
      (printHandler os ⟨"POST", .ok ⟨p, EncodeToString b⟩⟩).response =
        some ⟨200, "application/json", "\x7b\"status\":\"queued\"\x7d"⟩) := by
  have he := EncodeToString_ne_nil b hb
  simp only [printHandler, ne_eq, not_true_eq_false, if_false, hp, he,
    DecodeString_EncodeToString]
  cases hres : (sendToPrinter os p b).result with
  | panicked => simp
  | returned err =>
    cases err with
    | none => simp
    | some e => simp

/-- C5 at printer "Embosser1" and payload "hello", whose encoding is
"aGVsbG8=": the five bytes are dispatched and, every spooler call succeeding,
the answer is "queued". -/
theorem encoded_request_dispatches_bytes_witness :
    ((printHandler (spoolerOk 5)
        ⟨"POST", .ok ⟨ascii "Embosser1", EncodeToString (ascii "hello")⟩⟩).dispatched =
        [(ascii "Embosser1", ascii "hello")] ∧
      (printHandler (spoolerOk 5)
        ⟨"POST", .ok ⟨ascii "Embosser1", EncodeToString (ascii "hello")⟩⟩).trace =
        (sendToPrinter (spoolerOk 5) (ascii "Embosser1") (ascii "hello")).trace ∧
      ((sendToPrinter (spoolerOk 5) (ascii "Embosser1") (ascii "hello")).result =
          .returned none →
        (printHandler (spoolerOk 5)
          ⟨"POST", .ok ⟨ascii "Embosser1", EncodeToString (ascii "hello")⟩⟩).response =
          some ⟨200, "application/json", "\x7b\"status\":\"queued\"\x7d"⟩)) ∧
    EncodeToString (ascii "hello") = ascii "aGVsbG8=" ∧
    ascii "hello" = [104, 101, 108, 108, 111] ∧
    (sendToPrinter (spoolerOk 5) (ascii "Embosser1") (ascii "hello")).result =
      .returned none :=
  ⟨encoded_request_dispatches_bytes (spoolerOk 5) (ascii "Embosser1") (ascii "hello")
    (by decide) (by decide), by decide, by decide, by decide⟩

/-- C6: for every POST request whose decoded body has an empty (or absent)
printer field, an empty (or absent) data field, or a data field that
`DecodeString` rejects, `printHandler` answers 400 and calls neither
`sendToPrinter` nor the spooler. -/
theorem bad_request_no_dispatch (os : Winspool) (req : printRequest)
    (h : req.Printer = [] ∨ req.Data = [] ∨ (DecodeString req.Data).2 ≠ none) :
    (∃ resp, (printHandler os ⟨"POST", .ok req⟩).response = some resp ∧ resp.status = 400) ∧
    (printHandler os ⟨"POST", .ok req⟩).dispatched = [] ∧
    (printHandler os ⟨"POST", .ok req⟩).trace = [] := by
  simp only [printHandler, ne_eq, not_true_eq_false, if_false]
  by_cases hp : req.Printer = []
  · simp [hp, httpError]
  by_cases hd : req.Data = []
  · simp [hp, hd, httpError]
  rcases h with h | h | h
  · exact absurd h hp
  · exact absurd h hd
  · simp only [hp, hd, if_false]
    cases hdec : DecodeString req.Data with
    | mk raw err =>
      cases err with
      | none => simp [hdec] at h
      | some off => simp [httpError]

/-- C6 at printer "Embosser1" with an empty data field: the answer is
400 "data is required" and nothing is dispatched. -/
theorem bad_request_no_dispatch_witness :
    ((∃ resp, (printHandler (spoolerOk 5) ⟨"POST", .ok ⟨ascii "Embosser1", []⟩⟩).response =
        some resp ∧ resp.status = 400) ∧
      (printHandler (spoolerOk 5) ⟨"POST", .ok ⟨ascii "Embosser1", []⟩⟩).dispatched = [] ∧
      (printHandler (spoolerOk 5) ⟨"POST", .ok ⟨ascii "Embosser1", []⟩⟩).trace = []) ∧
    (printHandler (spoolerOk 5) ⟨"POST", .ok ⟨ascii "Embosser1", []⟩⟩).response =
      some (httpError "data is required" 400) :=
  ⟨bad_request_no_dispatch (spoolerOk 5) ⟨ascii "Embosser1", []⟩ (Or.inr (Or.inl rfl)),
    by decide⟩

/-- C9 fails on the code: a POST request with printer "Embosser1" and the data
string "\n" passes the `req.Data == ""` check, decodes without error to zero
bytes, and `printHandler` calls `sendToPrinter` with an empty payload; with a
spooler in which every call succeeds the dispatch faults on `data[0]` after
`StartPagePrinter`, so the handler panics and writes no response.  The same
holds for "\r\n". -/
theorem newline_payload_faults :
    ascii "\n" ≠ [] ∧
    DecodeString (ascii "\n") = ([], none) ∧
    printHandler (spoolerOk 0) ⟨"POST", .ok ⟨ascii "Embosser1", ascii "\n"⟩⟩ =
      ⟨none, [(ascii "Embosser1", [])],
        [⟨.OpenPrinterW (ascii "Embosser1"), ⟨1, 7, 0⟩⟩,
          ⟨.StartDocPrinterW 7 1 ⟨"Braille Vibe Job", none, "RAW"⟩, ⟨1, 0, 0⟩⟩,
          ⟨.StartPagePrinter 7, ⟨1, 0, 0⟩⟩,
          ⟨.ClosePrinter 7, ⟨1, 0, 0⟩⟩]⟩ ∧
    (sendToPrinter (spoolerOk 0) (ascii "Embosser1") []).result = .panicked ∧
    (printHandler (spoolerOk 0) ⟨"POST", .ok ⟨ascii "Embosser1", ascii "\r\n"⟩⟩).response =
      none ∧
    (printHandler (spoolerOk 0) ⟨"POST", .ok ⟨ascii "Embosser1", ascii "\r\n"⟩⟩).dispatched =
      [(ascii "Embosser1", [])] := by
  decide

end Bridge
